import Mathlib

/-!
Verification of the DNS migration scripts of the rinawarp-platform repository.

Python strings are modelled as lists of characters (`Str`); Python `dict`
records become structures; the external effects (DNS resolution via
`socket.gethostbyname`, the kubectl subprocess, HTTP calls) are modelled by
explicit parameters describing their outcome, so every function is pure and
executable.
-/

namespace DnsSync

/-- Python `str`, modelled as a list of characters. -/
abbrev Str := List Char

/-- Model of `content.startswith(pre)` for Python strings. -/
def strStartsWith (s pre : Str) : Bool := pre.isPrefixOf s

/-- Model of `content.endswith(suf)` for Python strings. -/
def strEndsWith (s suf : Str) : Bool := suf.isSuffixOf s

/-- Model of Python `sub in s` (substring containment). -/
def strContains (s sub : Str) : Bool := decide (sub <:+: s)

/-- A Cloudflare DNS record as consumed by `sync_dns_records.py`: the keys
`type`, `name`, `content`, `ttl` and `priority` of the JSON object. `ttl`
and `priority` are optional because the scripts read them with
`cf_record.get('ttl', 300)` and `cf_record.get('priority', 10)`. -/
structure CFRecord where
  type : Str
  name : Str
  content : Str
  ttl : Option Nat := none
  priority : Option Nat := none
deriving Repr, DecidableEq

/-- One element of the `ResourceRecords` list of a Route 53 record set. -/
structure ResourceRecord where
  value : Str
deriving Repr, DecidableEq

/-- The `ResourceRecordSet` payload of a Route 53 change. -/
structure ResourceRecordSet where
  name : Str
  type : Str
  ttl : Nat
  resourceRecords : List ResourceRecord
deriving Repr, DecidableEq

/-- A Route 53 change operation (`{'Action': ..., 'ResourceRecordSet': ...}`). -/
structure Change where
  action : Str
  resourceRecordSet : ResourceRecordSet
deriving Repr, DecidableEq

/-- Model of `resolve_railway_cname` (sync_dns_records.py lines 56-71).
`socket.gethostbyname` is modelled by the `resolver` parameter: `some ip`
when resolution succeeds, `none` when it raises; the bare `except` clause
returns `None`. -/
def resolve_railway_cname (resolver : Str → Option Str) (name content : Str)
    (ttl : Nat) : Option Change :=
  match resolver content with
  | some ip => some
      { action := "UPSERT".data
        resourceRecordSet :=
          { name := name
            type := "A".data
            ttl := ttl
            resourceRecords := [{ value := ip }] } }
  | none => none

/-- The name normalisation of `cloudflare_to_route53_record`
(sync_dns_records.py lines 79-83): the apex gets the zone name plus a
trailing dot, other in-zone names get a trailing dot, anything else is
passed through. -/
def r53name (name zone_name : Str) : Str :=
  if name = zone_name then zone_name ++ ".".data
  else if strEndsWith name zone_name then name ++ ".".data
  else name

/-- The TXT quoting of `cloudflare_to_route53_record`
(sync_dns_records.py lines 107-111): prepend-and-append a quote pair when
the content does not start with a quote, then append one more quote when
the result does not end with a quote. -/
def quoteTxt (content : Str) : Str :=
  let c1 := if strStartsWith content [Char.ofNat 34] then content
            else [Char.ofNat 34] ++ content ++ [Char.ofNat 34]
  if strEndsWith c1 [Char.ofNat 34] then c1 else c1 ++ [Char.ofNat 34]

/-- Model of `cloudflare_to_route53_record` (sync_dns_records.py lines
73-114). NS and SOA records are dropped; a CNAME whose content contains
`railway.app` is handed to `resolve_railway_cname` and its result returned
when non-`None` — when resolution fails the code falls through and the
record is emitted like any other record; MX values get the priority
prefixed; TXT values get quoted. -/
def cloudflare_to_route53_record (resolver : Str → Option Str)
    (cf_record : CFRecord) (zone_name : Str) : Option Change :=
  if cf_record.type = "NS".data ∨ cf_record.type = "SOA".data then none
  else
    let name := r53name cf_record.name zone_name
    let value :=
      if cf_record.type = "MX".data then
        (toString (cf_record.priority.getD 10)).data ++ " ".data ++ cf_record.content
      else if cf_record.type = "TXT".data then quoteTxt cf_record.content
      else cf_record.content
    let r53_record : Change :=
      { action := "UPSERT".data
        resourceRecordSet :=
          { name := name
            type := cf_record.type
            ttl := cf_record.ttl.getD 300
            resourceRecords := [{ value := value }] } }
    if cf_record.type = "CNAME".data ∧ strContains cf_record.content "railway.app".data then
      match resolve_railway_cname resolver name cf_record.content (cf_record.ttl.getD 300) with
      | some result => some result
      | none => some r53_record
    else some r53_record

/-- The hard-coded zone of `sync_dns_records.main` (line 131). -/
def ZONE_NAME : Str := "rinawarptech.com".data

/-- Model of the record-conversion loop of `sync_dns_records.main` (lines
150-160): a CNAME whose name equals the zone name is appended to
`skipped_records` and not converted; every other record is converted and
kept when the conversion returns a record. Returns
`(r53_records, skipped_records)`, both in loop order. -/
def convert_records (resolver : Str → Option Str) :
    List CFRecord → List Change × List CFRecord
  | [] => ([], [])
  | record :: rest =>
    if record.type = "CNAME".data ∧ record.name = ZONE_NAME then
      ((convert_records resolver rest).1, record :: (convert_records resolver rest).2)
    else
      match cloudflare_to_route53_record resolver record ZONE_NAME with
      | some r53_record =>
        (r53_record :: (convert_records resolver rest).1, (convert_records resolver rest).2)
      | none => convert_records resolver rest

/-- Model of the batching of `sync_to_route53` (sync_dns_records.py lines
119-121): `[records[i:i + 100] for i in range(0, len(records), 100)]`. -/
def make_batches (records : List Change) : List (List Change) :=
  if records = [] then []
  else records.take 100 :: make_batches (records.drop 100)
termination_by records.length
decreasing_by
  simp only [List.length_drop]
  rename_i h
  have : records.length ≠ 0 := fun h0 => h (List.length_eq_zero.mp h0)
  omega

/-- Model of `sync_to_route53` (lines 116-128): the list of
`change_resource_record_sets` calls issued, in order; each element is the
`Changes` payload of one call. -/
def sync_to_route53 (records : List Change) : List (List Change) :=
  make_batches records

/-- Model of the certificate polling loop of `cleanup_dns.main` (lines
141-163) and `update_cloudflare_dns.main` (lines 133-153), run against a
finite trace of fetched statuses. Returns
`(result, observations, waits)`: `some true` when the loop breaks on
`ISSUED`, `some false` when it breaks on `FAILED`, and `none` when the
trace ends with the loop still running (a non-terminal status never
terminates the loop); `observations` counts status fetches and `waits`
counts the `time.sleep(30)` calls. -/
def poll_certificate : List Str → Option Bool × Nat × Nat
  | [] => (none, 0, 0)
  | status :: rest =>
    if status = "ISSUED".data then (some true, 1, 0)
    else if status = "FAILED".data then (some false, 1, 0)
    else
      ((poll_certificate rest).1, (poll_certificate rest).2.1 + 1,
        (poll_certificate rest).2.2 + 1)

/-- An existing DNS record on the target provider, as returned by the
list-records API: its `id`, `name` and `type` fields. -/
structure ExistingRecord where
  id : Str
  name : Str
  type : Str
deriving Repr, DecidableEq

/-- A record payload sent to the target provider (the `record` dict of the
update scripts): `name` and `type` are the fields the lookup uses. -/
structure TargetRecord where
  type : Str
  name : Str
  content : Str
deriving Repr, DecidableEq

/-- The operation `update_dns_record` ends up issuing: a `PUT` on an
existing record id, or a `POST` creating a new record. -/
inductive DnsOp where
  | update (record_id : Str) (record : TargetRecord)
  | create (record : TargetRecord)
deriving Repr, DecidableEq

/-- Model of `update_dns_record` of `update_cloudflare_dns.py` (lines
41-74): query the provider for records matching `(name, type)`; when the
result list is non-empty, `PUT` to `result[0]['id']`, else `POST`. The
provider's filtered query is modelled as a filter over the zone's records. -/
def update_dns_record (existing : List ExistingRecord) (record : TargetRecord) :
    DnsOp :=
  match existing.filter (fun r => r.name = record.name ∧ r.type = record.type) with
  | m :: _ => DnsOp.update m.id record
  | [] => DnsOp.create record

/-- The full-domain-name computation of `update_dns_record` of
`update_cloudfront_dns.py` (lines 67-69): the apex is kept as is, any
other name gets `.rinawarptech.com` appended. -/
def cloudfront_full_name (record : TargetRecord) : Str :=
  if record.name = "rinawarptech.com".data then record.name
  else record.name ++ ".rinawarptech.com".data

/-- The linear scan and branch of `update_dns_record` of
`update_cloudfront_dns.py` (lines 71-94): find the first existing record
whose name is the full domain name and whose type matches, `PUT` to its id
when found, else `POST`. -/
def update_dns_record_cloudfront (existing : List ExistingRecord)
    (record : TargetRecord) : DnsOp :=
  match existing.find? (fun r => r.name = cloudfront_full_name record ∧ r.type = record.type) with
  | some m => DnsOp.update m.id record
  | none => DnsOp.create record

/-- Outcome of the `subprocess.run(['kubectl', ...], check=True)` call in
`get_cloudflare_token`: the process ran and exited 0 with this stdout, the
process ran and exited non-zero (Python raises
`subprocess.CalledProcessError`), or the invocation itself failed (for
example the `kubectl` binary is absent, Python raises
`FileNotFoundError`). -/
inductive KubectlOutcome where
  | ok (stdout : Str)
  | calledProcessError
  | execFailure
deriving Repr, DecidableEq

/-- Model of `get_cloudflare_token` (sync_dns_records.py lines 10-21).
`decode` models `base64.b64decode(stdout.strip()).decode('utf-8')`
(`none` when decoding raises); `env` models
`os.environ.get('CLOUDFLARE_API_TOKEN')`. The `except` clause catches only
`subprocess.CalledProcessError`; every other exception propagates
(`Except.error`). -/
def get_cloudflare_token (kubectl : KubectlOutcome) (decode : Str → Option Str)
    (env : Option Str) : Except String (Option Str) :=
  match kubectl with
  | .ok stdout =>
    match decode stdout with
    | some token => Except.ok (some token)
    | none => Except.error "uncaught decoding exception"
  | .calledProcessError => Except.ok env
  | .execFailure => Except.error "uncaught subprocess exception"

/-- Exit code of `cf-dns.py` (lines 35-46): `sys.exit(1)` when
`len(sys.argv) != 5`; otherwise `add_cname_record` catches every exception
internally and the process ends normally (exit 0) whatever the provider
does. -/
def cf_dns_exit (argv_len : Nat) : Nat :=
  if argv_len ≠ 5 then 1 else 0

/-- Exit code of `sync_dns_records.main` (lines 134-187): the whole body is
wrapped in `try/except Exception`, which prints the error and returns, so
the process exits 0 whether the body succeeds or raises. -/
def sync_dns_records_exit (body : Except String Unit) : Nat :=
  match body with
  | .ok _ => 0
  | .error _ => 0

/-- Exit code of `setup_cloudflare_redirects.main` (lines 119-185): a
missing token is printed and returned (exit 0); `get_zone_id` is called
with no surrounding `try/except`, so when it raises the exception escapes
`main()` and Python exits 1; everything after a successful zone lookup is
wrapped per-item in `try/except`, so the process exits 0. -/
def setup_cloudflare_redirects_exit (token : Option Str)
    (zone_lookup : Except String Str) : Nat :=
  match token with
  | none => 0
  | some _ =>
    match zone_lookup with
    | .error _ => 1
    | .ok _ => 0

/-- A Route 53 hosted zone modelled as a map keyed by `(name, type)`, the
identity key of a resource record set. -/
def ZoneMap := Str × Str → Option ResourceRecordSet

/-- Route 53 `UPSERT` semantics: create the record set or overwrite the
existing one with the same `(name, type)` key. -/
def upsert (zone : ZoneMap) (rrs : ResourceRecordSet) : ZoneMap :=
  fun k => if k = (rrs.name, rrs.type) then some rrs else zone k

/-- Apply one change operation to a zone. The scripts only ever emit
`UPSERT` actions, whose Route 53 semantics is the keyed overwrite. -/
def apply_change (zone : ZoneMap) (c : Change) : ZoneMap :=
  upsert zone c.resourceRecordSet

/-- Apply a change list to a zone, in order. -/
def apply_changes (changes : List Change) (zone : ZoneMap) : ZoneMap :=
  changes.foldl apply_change zone

/-- The record set the last change of a list with a given `(name, type)`
key carries, if any: the value `apply_changes` leaves at that key. -/
def last_upsert : List Change → Str × Str → Option ResourceRecordSet
  | [], _ => none
  | c :: rest, k =>
    match last_upsert rest k with
    | some r => some r
    | none =>
      if k = (c.resourceRecordSet.name, c.resourceRecordSet.type) then
        some c.resourceRecordSet
      else none

/-- Modelled from the spec: the value "starts with exactly one quote": its
first character is a double quote (character 34) and its second character,
when there is one, is not. Used to state the spec's quoting property for
comparison with the code's output. -/
def startsWithExactlyOneQuote (v : Str) : Bool :=
  match v with
  | [] => false
  | [c] => c == Char.ofNat 34
  | c1 :: c2 :: _ => c1 == Char.ofNat 34 && !(c2 == Char.ofNat 34)

/-- Modelled from the spec: the value is "wrapped in exactly one pair of
double quotes: it starts with exactly one quote and ends with exactly one
quote" — at least two characters, with exactly one quote at each end. -/
def wrappedInExactlyOneQuotePair (v : Str) : Bool :=
  decide (2 ≤ v.length) && startsWithExactlyOneQuote v &&
    startsWithExactlyOneQuote v.reverse

lemma strStartsWith_quote_cons (l : Str) :
    strStartsWith (Char.ofNat 34 :: l) [Char.ofNat 34] = true := by
  simp [strStartsWith, List.isPrefixOf]

lemma strStartsWith_quote_elim (l : Str)
    (h : strStartsWith l [Char.ofNat 34] = true) :
    ∃ t, l = Char.ofNat 34 :: t := by
  cases l with
  | nil => simp [strStartsWith, List.isPrefixOf] at h
  | cons c t =>
    simp [strStartsWith, List.isPrefixOf] at h
    exact ⟨t, by rw [h]⟩

lemma strEndsWith_append_quote (l : Str) :
    strEndsWith (l ++ [Char.ofNat 34]) [Char.ofNat 34] = true := by
  simp [strEndsWith, List.isSuffixOf, List.isPrefixOf, List.reverse_append]

/-- The TXT value produced by `quoteTxt` always begins and ends with a
double quote, whatever the input content. -/
lemma quoteTxt_quote_ends (content : Str) :
    strStartsWith (quoteTxt content) [Char.ofNat 34] = true ∧
    strEndsWith (quoteTxt content) [Char.ofNat 34] = true := by
  simp only [quoteTxt]
  by_cases h1 : strStartsWith content [Char.ofNat 34] = true
  · obtain ⟨t, rfl⟩ := strStartsWith_quote_elim content h1
    rw [if_pos h1]
    by_cases h2 : strEndsWith (Char.ofNat 34 :: t) [Char.ofNat 34] = true
    · rw [if_pos h2]
      exact ⟨strStartsWith_quote_cons t, h2⟩
    · rw [if_neg h2]
      exact ⟨strStartsWith_quote_cons (t ++ [Char.ofNat 34]),
        strEndsWith_append_quote (Char.ofNat 34 :: t)⟩
  · rw [if_neg h1]
    have he : strEndsWith ([Char.ofNat 34] ++ content ++ [Char.ofNat 34])
        [Char.ofNat 34] = true :=
      strEndsWith_append_quote (Char.ofNat 34 :: content)
    rw [if_pos he]
    exact ⟨strStartsWith_quote_cons (content ++ [Char.ofNat 34]), he⟩

/-- Claim C1, counterexample: the claim says that when the resolution of a
`railway.app` CNAME fails, no record is emitted (`None`). On this concrete
record with a failing resolver, `cloudflare_to_route53_record` does emit a
record — the fallthrough CNAME `UPSERT` — so the claim is false. -/
theorem c1_counterexample :
    cloudflare_to_route53_record (fun _ => none)
        { type := "CNAME".data, name := "api.rinawarptech.com".data,
          content := "x.up.railway.app".data } ZONE_NAME =
      some { action := "UPSERT".data,
             resourceRecordSet :=
               { name := "api.rinawarptech.com.".data, type := "CNAME".data,
                 ttl := 300,
                 resourceRecords := [{ value := "x.up.railway.app".data }] } } := by
  decide

/-- Claim C1, amended: for every CNAME record whose content contains
`railway.app`, when resolution succeeds with `ip` the reconciler emits an
A `UPSERT` record whose single value is `ip`; when resolution fails the
record is not dropped — the function falls through and emits the record as
an ordinary CNAME `UPSERT` with the original content as its value. -/
theorem c1_amended (resolver : Str → Option Str) (cf_record : CFRecord)
    (zone_name : Str) (htype : cf_record.type = "CNAME".data)
    (hrail : strContains cf_record.content "railway.app".data = true) :
    cloudflare_to_route53_record resolver cf_record zone_name =
      some (match resolver cf_record.content with
        | some ip =>
          { action := "UPSERT".data
            resourceRecordSet :=
              { name := r53name cf_record.name zone_name
                type := "A".data
                ttl := cf_record.ttl.getD 300
                resourceRecords := [{ value := ip }] } }
        | none =>
          { action := "UPSERT".data
            resourceRecordSet :=
              { name := r53name cf_record.name zone_name
                type := "CNAME".data
                ttl := cf_record.ttl.getD 300
                resourceRecords := [{ value := cf_record.content }] } }) := by
  obtain ⟨ty, nm, ct, ttl0, pr⟩ := cf_record
  have hty : ty = "CNAME".data := htype
  subst hty
  have hrail2 : strContains ct "railway.app".data = true := hrail
  unfold cloudflare_to_route53_record
  rw [if_neg (by decide :
    ¬(("CNAME".data : Str) = "NS".data ∨ ("CNAME".data : Str) = "SOA".data))]
  dsimp only
  rw [if_pos ⟨rfl, hrail2⟩]
  unfold resolve_railway_cname
  cases hres : resolver ct with
  | some ip => rfl
  | none =>
    rw [if_neg (by decide : ¬(("CNAME".data : Str) = "MX".data)),
      if_neg (by decide : ¬(("CNAME".data : Str) = "TXT".data))]

/-- Claim C1, witness: the amended theorem applied to a concrete record
and a succeeding resolver, evaluated. -/
theorem c1_witness :
    cloudflare_to_route53_record (fun _ => some "66.33.22.11".data)
        { type := "CNAME".data, name := "app.rinawarptech.com".data,
          content := "y.up.railway.app".data } ZONE_NAME =
      some { action := "UPSERT".data,
             resourceRecordSet :=
               { name := "app.rinawarptech.com.".data, type := "A".data,
                 ttl := 300,
                 resourceRecords := [{ value := "66.33.22.11".data }] } } :=
  c1_amended (fun _ => some "66.33.22.11".data)
    { type := "CNAME".data, name := "app.rinawarptech.com".data,
      content := "y.up.railway.app".data } ZONE_NAME (by decide) (by decide)

/-- Claim C2, counterexample: the claim says every emitted TXT value is
wrapped in exactly one pair of double quotes whatever the content's
initial form. For the content `a"` (a trailing quote, no leading one) the
emitted value is `"a""`, which ends in two quote characters, so the claim
is false. -/
theorem c2_counterexample :
    cloudflare_to_route53_record (fun _ => none)
        { type := "TXT".data, name := "x.rinawarptech.com".data,
          content := ['a', Char.ofNat 34] } ZONE_NAME =
      some { action := "UPSERT".data,
             resourceRecordSet :=
               { name := "x.rinawarptech.com.".data, type := "TXT".data,
                 ttl := 300,
                 resourceRecords :=
                   [{ value := [Char.ofNat 34, 'a', Char.ofNat 34, Char.ofNat 34] }] } } ∧
    wrappedInExactlyOneQuotePair
      [Char.ofNat 34, 'a', Char.ofNat 34, Char.ofNat 34] = false := by
  decide

/-- Claim C2, amended: for every TXT record the emitted value is
`quoteTxt content`, which always starts with a double quote and ends with
a double quote; it is not always exactly one enclosing pair — content
ending with a quote but not starting with one yields a doubled trailing
quote, and already-quoted content is passed through unchanged. -/
theorem c2_amended (resolver : Str → Option Str) (cf_record : CFRecord)
    (zone_name : Str) (htype : cf_record.type = "TXT".data) :
    cloudflare_to_route53_record resolver cf_record zone_name =
      some { action := "UPSERT".data,
             resourceRecordSet :=
               { name := r53name cf_record.name zone_name
                 type := "TXT".data
                 ttl := cf_record.ttl.getD 300
                 resourceRecords := [{ value := quoteTxt cf_record.content }] } } ∧
    strStartsWith (quoteTxt cf_record.content) [Char.ofNat 34] = true ∧
    strEndsWith (quoteTxt cf_record.content) [Char.ofNat 34] = true := by
  obtain ⟨ty, nm, ct, ttl0, pr⟩ := cf_record
  have hty : ty = "TXT".data := htype
  subst hty
  refine ⟨?_, (quoteTxt_quote_ends ct).1, (quoteTxt_quote_ends ct).2⟩
  unfold cloudflare_to_route53_record
  rw [if_neg (by decide :
    ¬(("TXT".data : Str) = "NS".data ∨ ("TXT".data : Str) = "SOA".data))]
  dsimp only
  rw [if_neg (by decide : ¬(("TXT".data : Str) = "MX".data)),
    if_pos (rfl : ("TXT".data : Str) = "TXT".data),
    if_neg (fun h => absurd h.1 (by decide :
      ¬(("TXT".data : Str) = "CNAME".data)))]

/-- Claim C2, witness: the amended theorem applied to a concrete TXT
record whose content is unquoted, evaluated. -/
theorem c2_witness :
    cloudflare_to_route53_record (fun _ => none)
        { type := "TXT".data, name := "rinawarptech.com".data,
          content := "v=spf1 -all".data } ZONE_NAME =
      some { action := "UPSERT".data,
             resourceRecordSet :=
               { name := "rinawarptech.com.".data, type := "TXT".data,
                 ttl := 300,
                 resourceRecords :=
                   [{ value := Char.ofNat 34 :: "v=spf1 -all".data ++ [Char.ofNat 34] }] } } ∧
    strStartsWith (quoteTxt "v=spf1 -all".data) [Char.ofNat 34] = true ∧
    strEndsWith (quoteTxt "v=spf1 -all".data) [Char.ofNat 34] = true :=
  c2_amended (fun _ => none)
    { type := "TXT".data, name := "rinawarptech.com".data,
      content := "v=spf1 -all".data } ZONE_NAME (by decide)

/-- Claim C3, counterexample: the claim says a process exits non-zero only
on malformed invocation. `setup_cloudflare_redirects.py` takes no
command-line arguments, so every invocation is well-formed; yet when the
token is present and the zone lookup raises, the exception escapes `main`
(no surrounding `try/except`) and the process exits 1, so the claim is
false. -/
theorem c3_counterexample :
    setup_cloudflare_redirects_exit (some "token".data)
      (Except.error "Zone not found") = 1 := rfl

/-- Claim C3, amended: `cf-dns.py` exits non-zero exactly on a wrong
argument count, and `sync_dns_records.py` always exits 0 because its whole
`main` body is wrapped in `try/except`; but `setup_cloudflare_redirects.py`
also exits non-zero whenever the token is present and the zone lookup
raises, because `get_zone_id` is called outside any `try/except` (a missing
token still exits 0). -/
theorem c3_exit_codes :
    (∀ argv_len, cf_dns_exit argv_len ≠ 0 ↔ argv_len ≠ 5) ∧
    (∀ body, sync_dns_records_exit body = 0) ∧
    (∀ token zone_lookup,
      setup_cloudflare_redirects_exit token zone_lookup ≠ 0 ↔
        ((∃ t, token = some t) ∧ ∃ e, zone_lookup = Except.error e)) := by
  refine ⟨?_, ?_, ?_⟩
  · intro n
    by_cases h : n = 5 <;> simp [cf_dns_exit, h]
  · intro body
    cases body <;> rfl
  · intro token zone_lookup
    cases token <;> cases zone_lookup <;>
      simp [setup_cloudflare_redirects_exit]

/-- Claim C3, witness: the amended theorem applied to a malformed
invocation of `cf-dns.py` (3 arguments instead of 5). -/
theorem c3_witness : cf_dns_exit 3 ≠ 0 :=
  (c3_exit_codes.1 3).mpr (by decide)

/-- Claim C4: every NS or SOA record at the zone apex is dropped by
`cloudflare_to_route53_record` (it returns `None`), and consequently
contributes nothing to the change list or the skipped list built by
`sync_dns_records.main`. -/
theorem c4_ns_soa_dropped (resolver : Str → Option Str) (cf_record : CFRecord)
    (htype : cf_record.type = "NS".data ∨ cf_record.type = "SOA".data)
    (_hapex : cf_record.name = ZONE_NAME) :
    cloudflare_to_route53_record resolver cf_record ZONE_NAME = none ∧
    ∀ rest, convert_records resolver (cf_record :: rest) =
      convert_records resolver rest := by
  have hdrop : cloudflare_to_route53_record resolver cf_record ZONE_NAME = none := by
    unfold cloudflare_to_route53_record
    exact if_pos htype
  refine ⟨hdrop, fun rest => ?_⟩
  have hnot : ¬(cf_record.type = "CNAME".data ∧ cf_record.name = ZONE_NAME) := by
    rintro ⟨h1, _⟩
    rcases htype with h | h <;> exact absurd (h.symm.trans h1) (by decide)
  simp only [convert_records]
  rw [if_neg hnot, hdrop]

/-- Claim C4, witness: the theorem applied to a concrete NS record at the
apex. -/
theorem c4_witness :
    cloudflare_to_route53_record (fun _ => none)
      { type := "NS".data, name := "rinawarptech.com".data,
        content := "ns-1525.awsdns-62.org".data } ZONE_NAME = none :=
  (c4_ns_soa_dropped (fun _ => none)
    { type := "NS".data, name := "rinawarptech.com".data,
      content := "ns-1525.awsdns-62.org".data } (Or.inl rfl) rfl).1

/-- Claim C5: on the status trace `[PENDING_VALIDATION,
PENDING_VALIDATION, ISSUED]` the certificate poller succeeds after exactly
3 observations and 2 waits; on `[PENDING_VALIDATION, FAILED]` it fails
after exactly 2 observations and 1 wait; and a trace of non-terminal
statuses never terminates the loop. -/
theorem c5_poller :
    poll_certificate
        ["PENDING_VALIDATION".data, "PENDING_VALIDATION".data, "ISSUED".data] =
      (some true, 3, 2) ∧
    poll_certificate ["PENDING_VALIDATION".data, "FAILED".data] =
      (some false, 2, 1) ∧
    ∀ trace : List Str,
      (∀ s ∈ trace, s ≠ "ISSUED".data ∧ s ≠ "FAILED".data) →
        (poll_certificate trace).1 = none := by
  refine ⟨by decide, by decide, ?_⟩
  intro trace h
  induction trace with
  | nil => rfl
  | cons s rest ih =>
    have hs := h s (List.mem_cons_self s rest)
    unfold poll_certificate
    rw [if_neg hs.1, if_neg hs.2]
    exact ih fun x hx => h x (List.mem_cons_of_mem s hx)

/-- Claim C5, witness: the non-termination conjunct applied to the
singleton non-terminal trace. -/
theorem c5_witness : (poll_certificate ["PENDING_VALIDATION".data]).1 = none :=
  c5_poller.2.2 ["PENDING_VALIDATION".data] (by decide)

lemma filter_head?_eq_find? (p : ExistingRecord → Bool) (l : List ExistingRecord) :
    (l.filter p).head? = l.find? p := by
  induction l with
  | nil => rfl
  | cons a t ih =>
    by_cases h : p a
    · simp [List.filter_cons, h]
    · simp [List.filter_cons, h, ih]

/-- Claim C6: both update scripts implement create-or-update keyed by
`(name, type)`: when some existing record matches the key the operation is
an in-place update carrying the first matching record's id, otherwise it
is a create; the matched record really is an element of the zone matching
the key, and the create branch is taken exactly when nothing matches. -/
theorem c6_create_or_update (existing : List ExistingRecord)
    (record : TargetRecord) :
    update_dns_record existing record =
      (match existing.find? (fun r => r.name = record.name ∧ r.type = record.type) with
       | some m => DnsOp.update m.id record
       | none => DnsOp.create record) ∧
    update_dns_record_cloudfront existing record =
      (match existing.find?
          (fun r => r.name = cloudfront_full_name record ∧ r.type = record.type) with
       | some m => DnsOp.update m.id record
       | none => DnsOp.create record) ∧
    (∀ m, existing.find? (fun r => r.name = record.name ∧ r.type = record.type) =
        some m → m ∈ existing ∧ m.name = record.name ∧ m.type = record.type) ∧
    (existing.find? (fun r => r.name = record.name ∧ r.type = record.type) = none →
      ∀ m ∈ existing, ¬(m.name = record.name ∧ m.type = record.type)) := by
  refine ⟨?_, rfl, ?_, ?_⟩
  · have h1 : update_dns_record existing record =
        (match (existing.filter
            (fun r => r.name = record.name ∧ r.type = record.type)).head? with
         | some m => DnsOp.update m.id record
         | none => DnsOp.create record) := by
      unfold update_dns_record
      cases existing.filter (fun r => r.name = record.name ∧ r.type = record.type) <;>
        rfl
    rw [h1, filter_head?_eq_find?]
  · intro m hm
    have hp := List.find?_some hm
    have hmem := List.mem_of_find?_eq_some hm
    have hp2 := of_decide_eq_true hp
    exact ⟨hmem, hp2.1, hp2.2⟩
  · intro hnone m hm hc
    exact List.find?_eq_none.mp hnone m hm (decide_eq_true hc)

/-- Claim C6, witness: the lookup-semantics conjunct applied to a
one-record zone whose record matches the key. -/
theorem c6_witness :
    ({ id := "id1".data, name := "api.rinawarptech.com".data,
       type := "CNAME".data } : ExistingRecord) ∈
      ([{ id := "id1".data, name := "api.rinawarptech.com".data,
          type := "CNAME".data }] : List ExistingRecord) ∧
    ({ id := "id1".data, name := "api.rinawarptech.com".data,
       type := "CNAME".data } : ExistingRecord).name =
      ({ type := "CNAME".data, name := "api.rinawarptech.com".data,
         content := "d1.cloudfront.net".data } : TargetRecord).name ∧
    ({ id := "id1".data, name := "api.rinawarptech.com".data,
       type := "CNAME".data } : ExistingRecord).type =
      ({ type := "CNAME".data, name := "api.rinawarptech.com".data,
         content := "d1.cloudfront.net".data } : TargetRecord).type :=
  (c6_create_or_update
    [{ id := "id1".data, name := "api.rinawarptech.com".data, type := "CNAME".data }]
    { type := "CNAME".data, name := "api.rinawarptech.com".data,
      content := "d1.cloudfront.net".data }).2.2.1
    { id := "id1".data, name := "api.rinawarptech.com".data, type := "CNAME".data }
    (by decide)

/-- Claim C7, counterexample: the claim says any failure of the kubectl
invocation falls back to the environment variable. When the invocation
itself fails to execute (for example the binary is absent, a
`FileNotFoundError`), the `except subprocess.CalledProcessError` clause
does not catch it: `get_cloudflare_token` raises instead of returning the
environment token, so the claim is false. -/
theorem c7_counterexample :
    get_cloudflare_token KubectlOutcome.execFailure (fun s => some s)
        (some "envtok".data) ≠ Except.ok (some "envtok".data) := by
  unfold get_cloudflare_token
  intro h
  exact Except.noConfusion h

/-- Claim C7, amended: `get_cloudflare_token` reads the Kubernetes secret
first and falls back to the `CLOUDFLARE_API_TOKEN` environment variable
exactly when the kubectl process exits non-zero
(`subprocess.CalledProcessError`); when the invocation itself fails to
execute, the exception propagates instead of falling back. -/
theorem c7_token_fallback (decode : Str → Option Str) (env : Option Str) :
    get_cloudflare_token KubectlOutcome.calledProcessError decode env =
      Except.ok env ∧
    (∀ stdout token, decode stdout = some token →
      get_cloudflare_token (KubectlOutcome.ok stdout) decode env =
        Except.ok (some token)) ∧
    get_cloudflare_token KubectlOutcome.execFailure decode env =
      Except.error "uncaught subprocess exception" := by
  refine ⟨rfl, ?_, rfl⟩
  intro stdout token h
  have hstep : get_cloudflare_token (KubectlOutcome.ok stdout) decode env =
      (match decode stdout with
       | some t => Except.ok (some t)
       | none => Except.error "uncaught decoding exception") := rfl
  rw [hstep, h]

/-- Claim C7, witness: the secret-first conjunct applied to a successful
kubectl call whose output decodes. -/
theorem c7_witness :
    get_cloudflare_token (KubectlOutcome.ok "c2VjcmV0".data) some
        (some "envtok2".data) = Except.ok (some "c2VjcmV0".data) :=
  (c7_token_fallback some (some "envtok2".data)).2.1 "c2VjcmV0".data
    "c2VjcmV0".data rfl

lemma make_batches_flatten : ∀ (n : Nat) (records : List Change),
    records.length ≤ n → (make_batches records).flatten = records := by
  intro n
  induction n with
  | zero =>
    intro records h
    have hnil : records = [] := List.length_eq_zero.mp (Nat.le_zero.mp h)
    subst hnil
    rw [make_batches]
    simp
  | succ n ih =>
    intro records h
    rw [make_batches]
    by_cases hr : records = []
    · simp [hr]
    · rw [if_neg hr]
      have hlen : (records.drop 100).length ≤ n := by
        have hpos : 0 < records.length := List.length_pos.mpr hr
        rw [List.length_drop]
        omega
      rw [List.flatten_cons, ih (records.drop 100) hlen,
        List.take_append_drop]

lemma make_batches_size : ∀ (n : Nat) (records : List Change),
    records.length ≤ n → ∀ b ∈ make_batches records, b.length ≤ 100 := by
  intro n
  induction n with
  | zero =>
    intro records h b hb
    have hnil : records = [] := List.length_eq_zero.mp (Nat.le_zero.mp h)
    subst hnil
    rw [make_batches] at hb
    simp at hb
  | succ n ih =>
    intro records h b hb
    rw [make_batches] at hb
    by_cases hr : records = []
    · simp [hr] at hb
    · rw [if_neg hr] at hb
      have hlen : (records.drop 100).length ≤ n := by
        have hpos : 0 < records.length := List.length_pos.mpr hr
        rw [List.length_drop]
        omega
      rcases List.mem_cons.mp hb with hb | hb
      · subst hb
        rw [List.length_take]
        exact Nat.min_le_left 100 records.length
      · exact ih (records.drop 100) hlen b hb

/-- Claim C8: `sync_to_route53` issues one `change_resource_record_sets`
call per batch, every batch holds at most 100 changes, and the batches
concatenated in call order are exactly the input change list — nothing is
dropped, duplicated or reordered. -/
theorem c8_batching (records : List Change) :
    ((sync_to_route53 records).all fun batch => batch.length ≤ 100) = true ∧
    (sync_to_route53 records).flatten = records := by
  constructor
  · rw [List.all_eq_true]
    intro batch hb
    exact decide_eq_true
      (make_batches_size records.length records Nat.le.refl batch hb)
  · exact make_batches_flatten records.length records Nat.le.refl

/-- The value `apply_changes` leaves at a key is the record set of the
last change with that key, or the zone's previous value when the list
never touches the key. -/
lemma apply_changes_eval (changes : List Change) :
    ∀ (zone : ZoneMap) (k : Str × Str),
      apply_changes changes zone k =
        (match last_upsert changes k with
         | some r => some r
         | none => zone k) := by
  induction changes with
  | nil => intro zone k; rfl
  | cons c t ih =>
    intro zone k
    have hcons : apply_changes (c :: t) zone = apply_changes t (apply_change zone c) :=
      rfl
    rw [hcons, ih]
    cases hl : last_upsert t k with
    | some r => simp [last_upsert, hl]
    | none =>
      simp only [last_upsert, hl, apply_change, upsert]
      by_cases hk : k = (c.resourceRecordSet.name, c.resourceRecordSet.type) <;>
        simp [hk]

/-- Every change `cloudflare_to_route53_record` emits carries the action
`UPSERT`, whichever branch produced it. -/
lemma emitted_action_upsert (resolver : Str → Option Str) (cf_record : CFRecord)
    (zone_name : Str) (change : Change)
    (h : cloudflare_to_route53_record resolver cf_record zone_name = some change) :
    change.action = "UPSERT".data := by
  unfold cloudflare_to_route53_record at h
  split at h
  · exact Option.noConfusion h
  · dsimp only at h
    split at h
    · split at h
      · rename_i result heq
        cases h
        unfold resolve_railway_cname at heq
        cases hres : resolver cf_record.content <;> rw [hres] at heq
        · exact Option.noConfusion heq
        · cases heq; rfl
      · cases h; rfl
    · cases h; rfl

/-- Claim C9: every change the reconciler emits has action `UPSERT`, and
applying a change list to a zone (a map keyed by `(name, type)`) twice
leaves the zone exactly as applying it once — the sync is idempotent. -/
theorem c9_idempotent :
    (∀ (resolver : Str → Option Str) (cf_record : CFRecord) (zone_name : Str)
        (change : Change),
      cloudflare_to_route53_record resolver cf_record zone_name = some change →
        change.action = "UPSERT".data) ∧
    (∀ (changes : List Change) (zone : ZoneMap),
      apply_changes changes (apply_changes changes zone) =
        apply_changes changes zone) := by
  constructor
  · exact fun resolver cf zone change h =>
      emitted_action_upsert resolver cf zone change h
  · intro changes zone
    funext k
    cases hl : last_upsert changes k with
    | some r =>
      rw [apply_changes_eval changes (apply_changes changes zone) k,
        apply_changes_eval changes zone k, hl]
    | none =>
      rw [apply_changes_eval changes (apply_changes changes zone) k, hl]

/-- Claim C9, witness: the action conjunct applied to a concrete A record. -/
theorem c9_witness :
    ({ action := "UPSERT".data,
       resourceRecordSet :=
         { name := "rinawarptech.com.".data, type := "A".data, ttl := 300,
           resourceRecords := [{ value := "9.9.9.9".data }] } } : Change).action =
      "UPSERT".data :=
  c9_idempotent.1 (fun _ => none)
    { type := "A".data, name := "rinawarptech.com".data,
      content := "9.9.9.9".data } ZONE_NAME
    { action := "UPSERT".data,
      resourceRecordSet :=
        { name := "rinawarptech.com.".data, type := "A".data, ttl := 300,
          resourceRecords := [{ value := "9.9.9.9".data }] } }
    (by decide)

/-- Claim C10: the loop of `sync_dns_records.main` puts exactly the
apex-name CNAME records into `skipped_records` and builds the change list
by converting exactly the remaining records — so the CNAME-to-A
conversion is never applied to an apex record, whatever its content. -/
theorem c10_apex_cname_excluded (resolver : Str → Option Str)
    (cf_records : List CFRecord) :
    (convert_records resolver cf_records).2 =
      cf_records.filter
        (fun r => r.type = "CNAME".data ∧ r.name = ZONE_NAME) ∧
    (convert_records resolver cf_records).1 =
      (cf_records.filter
        (fun r => !decide (r.type = "CNAME".data ∧ r.name = ZONE_NAME))).filterMap
        (fun r => cloudflare_to_route53_record resolver r ZONE_NAME) := by
  induction cf_records with
  | nil => exact ⟨rfl, rfl⟩
  | cons r rest ih =>
    by_cases h : r.type = "CNAME".data ∧ r.name = ZONE_NAME
    · simp [convert_records, List.filter_cons, h, ih.1, ih.2]
    · have hd := not_and_or.mp h
      cases hc : cloudflare_to_route53_record resolver r ZONE_NAME <;>
        rcases hd with hx | hx <;>
        simp [convert_records, List.filter_cons, List.filterMap_cons, h, hx, hc,
          ih.1, ih.2]

end DnsSync
